import Mathlib

/-!
Verification of the lastfm-archiver pipeline (src/main.rs) against its
natural-language specification.

The code is shallowly embedded: an XML tree (xmltree::Element) becomes the
inductive `Element`; `Track::build_track`, `Response::build_response` and
`Response::from_slice` become functions into `Except String _` (the code's
`failure::Error` carries only a message string, produced by `err_msg`);
the `stream::unfold` pagination driver in `fetch_tracks` becomes a
fuel-indexed trace function over a response oracle; the consumption loop
in `archiver` becomes `archiver`/`archiverRun`, over a fallible network
oracle, a fallible insert and a fallible schema setup, so every error
stage of the code (network, parse, API, storage) is represented; the
month-milestone logic
(`same_month` and the `prev_date` running state) is embedded over calendar
dates represented as (year, month) pairs, exactly the fields `chrono`'s
`Date::month`/`Date::year` expose to `same_month`.
-/

/-- Embedding of `xmltree::Element` as used by the code: a name, an
attribute map (association list, unique keys), optional text content
(`xmltree` stores the concatenated character data, `None` when the element
has none), and a list of child elements. -/
inductive Element where
  | mk (name : String) (attributes : List (String × String))
       (text : Option String) (children : List Element)

def Element.name : Element → String
  | .mk n _ _ _ => n

def Element.attributes : Element → List (String × String)
  | .mk _ a _ _ => a

def Element.text : Element → Option String
  | .mk _ _ t _ => t

def Element.children : Element → List Element
  | .mk _ _ _ c => c

/-- `element.attributes.get(key)`: lookup in the attribute map. -/
def Element.getAttr (e : Element) (k : String) : Option String :=
  (e.attributes.find? (fun p => p.1 == k)).map (fun p => p.2)

/-- `element.take_child(name)`: the first child with the given name.
Each parsing function asks for each child name at most once, so the
removal `take_child` performs does not affect later lookups. -/
def Element.take_child (e : Element) (n : String) : Option Element :=
  e.children.find? (fun c => c.name == n)

/-- Decimal digits to a number; `none` on an empty list or a non-digit. -/
def parseDigits : List Char → Option Nat
  | [] => none
  | cs => cs.foldl
      (fun acc c => acc.bind fun a =>
        if c.isDigit then some (a * 10 + (c.toNat - 48)) else none)
      (some 0)

/-- Embedding of Rust's `u64::from_str`: optional leading `+`, decimal
digits, value below 2^64. -/
def parseU64 (s : String) : Option Nat :=
  let cs := match s.data with
    | '+' :: rest => rest
    | cs => cs
  (parseDigits cs).bind fun v => if v < 2 ^ 64 then some v else none

/-- Embedding of Rust's `i64::from_str`: optional sign, decimal digits,
value in the i64 range. -/
def parseI64 (s : String) : Option Int :=
  match s.data with
  | '-' :: rest =>
      (parseDigits rest).bind fun v =>
        if v ≤ 2 ^ 63 then some (-(v : Int)) else none
  | '+' :: rest =>
      (parseDigits rest).bind fun v =>
        if v < 2 ^ 63 then some (v : Int) else none
  | cs =>
      (parseDigits cs).bind fun v =>
        if v < 2 ^ 63 then some (v : Int) else none

/-- `struct Artist { mbid: Option<String>, name: String }`. -/
structure Artist where
  mbid : Option String
  name : String
deriving DecidableEq, Repr

/-- `struct Album { mbid: Option<String>, name: String }`. -/
structure Album where
  mbid : Option String
  name : String
deriving DecidableEq, Repr

/-- `struct Track`; `time` is the `DateTime<Utc>` held as its unix-second
value, which is exactly what `Utc.timestamp(secs, 0)` stores and what
`insert` writes back out via `timestamp()`. -/
structure Track where
  artist : Option Artist
  album : Option Album
  mbid : Option String
  name : String
  time : Int
deriving DecidableEq, Repr

/-- Embedding of `Track::build_track`: requires `artist`, `album`, `mbid`,
`name` and `date` children in that order; artist/album become `none` when
their element text is absent; every mbid equal to `""` is filtered to
`none`; the `date` element's `uts` attribute must parse as an `i64`.
Error messages are the `err_msg` strings of the code; the message for a
non-numeric `uts` (a `ParseIntError` rendered by `failure`) is modelled as
`"invalid number"`. -/
def Track.build_track (t : Element) : Except String Track :=
  match t.take_child "artist" with
  | none => .error "missing artist"
  | some artistEl =>
    let artist : Option Artist :=
      match artistEl.text with
      | some name => some ⟨(artistEl.getAttr "mbid").filter (fun m => m != ""), name⟩
      | none => none
    match t.take_child "album" with
    | none => .error "missing album"
    | some albumEl =>
      let album : Option Album :=
        match albumEl.text with
        | some name => some ⟨(albumEl.getAttr "mbid").filter (fun m => m != ""), name⟩
        | none => none
      match t.take_child "mbid" with
      | none => .error "missing mbid"
      | some mbidEl =>
        let mbid := mbidEl.text.filter (fun m => m != "")
        match t.take_child "name" with
        | none => .error "missing name"
        | some nameEl =>
          match nameEl.text with
          | none => .error "empty name"
          | some name =>
            match t.take_child "date" with
            | none => .error "missing date"
            | some dateEl =>
              match dateEl.getAttr "uts" with
              | none => .error "missing timestamp"
              | some utsStr =>
                match parseI64 utsStr with
                | none => .error "invalid number"
                | some secs => .ok ⟨artist, album, mbid, name, secs⟩

/-- `struct Response`: current page, total pages, total track count, and
the parsed tracks of this page. -/
structure Response where
  page : Nat
  total_pages : Nat
  total_tracks : Nat
  tracks : List Track
deriving DecidableEq, Repr

/-- The `filter` closure in `Response::build_response`: a child is kept
unless its `nowplaying` attribute is present and equal to `"true"`. -/
def keepTrack (c : Element) : Bool :=
  match c.getAttr "nowplaying" with
  | some status => status != "true"
  | none => true

/-- Embedding of `Response::build_response`: requires the `page`,
`totalPages` and `total` attributes to parse as `u64`; filters out
now-playing children; then parses every remaining child with
`Track::build_track`, the whole page failing on the first bad record
(Rust's `collect::<Result<Vec<_>, _>>`). -/
def Response.build_response (r : Element) : Except String Response :=
  match r.getAttr "page" with
  | none => .error "missing page"
  | some sp =>
    match parseU64 sp with
    | none => .error "invalid number"
    | some page =>
      match r.getAttr "totalPages" with
      | none => .error "missing totalPages"
      | some stp =>
        match parseU64 stp with
        | none => .error "invalid number"
        | some total_pages =>
          match r.getAttr "total" with
          | none => .error "missing total"
          | some st =>
            match parseU64 st with
            | none => .error "invalid number"
            | some total_tracks =>
              match (r.children.filter keepTrack).mapM Track.build_track with
              | .error e => .error e
              | .ok tracks => .ok ⟨page, total_pages, total_tracks, tracks⟩

/-- Embedding of `Response::from_slice` after the XML text has been parsed
into an `Element` tree (malformed XML fails inside `xmltree` before this
logic runs): dispatch on the root's `status` attribute — `"ok"` extracts
the `recenttracks` container and builds the response, `"failed"` returns
the text of the `error` child as the error message, anything else returns
`"unknown status"`. -/
def Response.from_slice (root : Element) : Except String Response :=
  match root.getAttr "status" with
  | none => .error "missing status"
  | some status =>
    if status == "ok" then
      match root.take_child "recenttracks" with
      | none => .error "missing recenttracks"
      | some rt => Response.build_response rt
    else if status == "failed" then
      match root.take_child "error" with
      | none => .error "missing error"
      | some errEl =>
        match errEl.text with
        | none => .error "missing error message"
        | some msg => .error msg
    else .error "unknown status"

/-- The cursor update in `fetch_tracks`: `Some(page + 1)` iff the parsed
response's `page` field is below its `total_pages` field, else `None`. -/
def nextCursor (r : Response) : Option Nat :=
  if r.page < r.total_pages then some (r.page + 1) else none

/-- Trace of page numbers requested by the `stream::unfold` driver in
`fetch_tracks`, given an oracle `resp` mapping each requested page number
to the parsed response the server returns for it. `fuel` bounds the number
of pulls so the function is total; every theorem below supplies enough
fuel for the trace it states. -/
def fetch_tracks (resp : Nat → Response) : Option Nat → Nat → List Nat
  | none, _ => []
  | some _, 0 => []
  | some n, fuel + 1 => n :: fetch_tracks resp (nextCursor (resp n)) fuel

/-- The per-page insert loop inside `archiver`'s `for_each` closure:
tracks are inserted in order via `track.insert(&connection)?`, so the
first failing insert aborts with its `StorageError` message, keeping the
already-inserted prefix; a failed `execute` writes no row. Returns the
inserted tracks and the aborting error if any. -/
def insertTracks (ins : Track → Except String Unit) :
    List Track → List Track × Option String
  | [] => ([], none)
  | t :: rest =>
    match ins t with
    | .error e => ([], some e)
    | .ok _ =>
      let r := insertTracks ins rest
      (t :: r.1, r.2)

/-- Embedding of the `archiver` consumption loop after schema setup. The
network is an oracle `fetch` that either delivers the decoded XML tree
for the requested page or fails with a transport error (`hyper`'s error
surfaced through `from_err`, a `NetworkError`); `ins` is the fallible
insert. Each pull fetches the page at the cursor — a transport error ends
the stream with that error; a `from_slice` failure (`ParseError` or
`APIError`) likewise; otherwise the page's tracks are inserted in order,
a failing insert aborting `for_each` at once; only then does the cursor
advance. Returns the list of requested page numbers, the inserted tracks,
and the terminal error if any. `fuel` bounds the number of pulls so the
function is total; every theorem below supplies enough fuel. -/
def archiverRun (fetch : Nat → Except String Element)
    (ins : Track → Except String Unit) :
    Option Nat → Nat → List Nat × List Track × Option String
  | none, _ => ([], [], none)
  | some _, 0 => ([], [], none)
  | some n, fuel + 1 =>
    match fetch n with
    | .error e => ([n], [], some e)
    | .ok el =>
      match Response.from_slice el with
      | .error e => ([n], [], some e)
      | .ok resp =>
        match insertTracks ins resp.tracks with
        | (ts, some e) => ([n], ts, some e)
        | (ts, none) =>
          let rest := archiverRun fetch ins (nextCursor resp) fuel
          (n :: rest.1, ts ++ rest.2.1, rest.2.2)

/-- Embedding of `archiver`: `future::result(setup_database(&connection))`
runs first — a `StorageError` from the idempotent schema setup aborts the
run before any fetch — and only on success does the
`fetch_tracks(...).for_each(...)` loop start from page 1. -/
def archiver (setup : Except String Unit) (fetch : Nat → Except String Element)
    (ins : Track → Except String Unit) (fuel : Nat) :
    List Nat × List Track × Option String :=
  match setup with
  | .error e => ([], [], some e)
  | .ok _ => archiverRun fetch ins (some 1) fuel

/-- A calendar date as `same_month` sees it: the `year()` and `month()`
fields of `chrono::Date`. -/
structure SimpleDate where
  year : Int
  month : Nat
deriving DecidableEq, Repr

instance : Inhabited SimpleDate := ⟨⟨0, 1⟩⟩

/-- Embedding of `same_month`: equal month and equal year. -/
def same_month (a b : SimpleDate) : Bool :=
  a.month == b.month && a.year == b.year

/-- The milestone condition in the `archiver` loop:
`prev_date.is_none() || !same_month(&prev_date.unwrap(), &track_date)`. -/
def fireMilestone : Option SimpleDate → SimpleDate → Bool
  | none, _ => true
  | some p, d => ! same_month p d

/-- One milestone flag per consumed record, threading the `prev_date`
state exactly as the `archiver` loop does (`prev_date = Some(track_date)`
after every record). -/
def milestoneFlags : Option SimpleDate → List SimpleDate → List Bool
  | _, [] => []
  | prev, d :: rest => fireMilestone prev d :: milestoneFlags (some d) rest

/-- When every response echoes the requested page and reports `k` total
pages, the driver starting at page `n ≤ k` visits exactly the pages
`n, n+1, ..., k`. -/
theorem fetch_tracks_from (resp : Nat → Response) (k : Nat)
    (hecho : ∀ n, (resp n).page = n) (htot : ∀ n, (resp n).total_pages = k) :
    ∀ fuel n, n ≤ k → k - n < fuel →
      fetch_tracks resp (some n) fuel = List.range' n (k - n + 1) := by
  intro fuel
  induction fuel with
  | zero => intro n _ hf; exact absurd hf (Nat.not_lt_zero _)
  | succ fuel ih =>
    intro n hn hf
    have hstep : fetch_tracks resp (some n) (fuel + 1)
        = n :: fetch_tracks resp (nextCursor (resp n)) fuel := rfl
    rw [hstep]
    unfold nextCursor
    rw [hecho n, htot n]
    by_cases h : n < k
    · simp only [h, if_true]
      rw [ih (n + 1) (by omega) (by omega)]
      have hc : k - n + 1 = (k - (n + 1) + 1) + 1 := by omega
      rw [hc]
      simp [List.range'_succ]
    · have hnk : n = k := by omega
      simp only [h, if_false]
      have hc : k - n + 1 = 1 := by omega
      have hnone : fetch_tracks resp none fuel = [] := by cases fuel <;> rfl
      rw [hc, hnone]
      simp [List.range'_succ]

/-- C1: when every well-formed response echoes the requested page number
and reports `totalPages = k ≥ 1`, the pagination driver performs exactly
`k` fetches, requesting pages `1, 2, ..., k` (`List.range' 1 k`) in
strictly increasing contiguous order, and terminates with no `(k+1)`-th
fetch; `k = 1` gives a sequence of length 1. -/
theorem fetch_tracks_pages_one_to_k (resp : Nat → Response) (k fuel : Nat)
    (hecho : ∀ n, (resp n).page = n) (htot : ∀ n, (resp n).total_pages = k)
    (hk : 1 ≤ k) (hfuel : k ≤ fuel) :
    fetch_tracks resp (some 1) fuel = List.range' 1 k ∧
    (fetch_tracks resp (some 1) fuel).length = k := by
  have h := fetch_tracks_from resp k hecho htot fuel 1 hk (by omega)
  have hc : k - 1 + 1 = k := by omega
  rw [h, hc]
  exact ⟨rfl, by simp⟩

theorem fetch_tracks_pages_one_to_k_witness :
    (fetch_tracks (fun n => ⟨n, 3, 0, []⟩) (some 1) 3 = List.range' 1 3 ∧
      (fetch_tracks (fun n => ⟨n, 3, 0, []⟩) (some 1) 3).length = 3) ∧
    (fetch_tracks (fun n => ⟨n, 1, 0, []⟩) (some 1) 1 = List.range' 1 1 ∧
      (fetch_tracks (fun n => ⟨n, 1, 0, []⟩) (some 1) 1).length = 1) :=
  ⟨fetch_tracks_pages_one_to_k _ 3 3 (fun _ => rfl) (fun _ => rfl)
      (by decide) (by decide),
    fetch_tracks_pages_one_to_k _ 1 1 (fun _ => rfl) (fun _ => rfl)
      (by decide) (by decide)⟩

/-- C10: the next cursor is computed from the `page` attribute parsed out
of the response body, not from the page number that was requested: after
requesting page `n`, if the response's parsed page `P` satisfies
`P < totalPages` then the next fetch requests `P + 1`, whatever `n` was. -/
theorem next_cursor_from_response_page (resp : Nat → Response) (n fuel : Nat)
    (h : (resp n).page < (resp n).total_pages) :
    nextCursor (resp n) = some ((resp n).page + 1) ∧
    fetch_tracks resp (some n) (fuel + 2) =
      n :: ((resp n).page + 1)
        :: fetch_tracks resp (nextCursor (resp ((resp n).page + 1))) fuel := by
  have hc : nextCursor (resp n) = some ((resp n).page + 1) := by
    unfold nextCursor
    simp only [h, if_true]
  refine ⟨hc, ?_⟩
  have hstep : fetch_tracks resp (some n) (fuel + 2)
      = n :: fetch_tracks resp (nextCursor (resp n)) (fuel + 1) := rfl
  rw [hstep, hc]
  rfl

theorem next_cursor_from_response_page_witness :
    nextCursor ((fun _ => (⟨5, 7, 0, []⟩ : Response)) 1) = some 6 ∧
    fetch_tracks (fun _ => (⟨5, 7, 0, []⟩ : Response)) (some 1) 2 =
      1 :: 6 :: fetch_tracks (fun _ => (⟨5, 7, 0, []⟩ : Response))
        (nextCursor ((fun _ => (⟨5, 7, 0, []⟩ : Response)) 6)) 0 :=
  next_cursor_from_response_page (fun _ => ⟨5, 7, 0, []⟩) 1 0 (by decide)

/-- C3: an error at any stage aborts the entire run immediately, with no
retry, no skip, and a single propagated message. Stage by stage: a
storage error during schema setup ends the run with zero fetches and zero
inserts; a network error fetching page `n` ends it after that single
attempt with zero inserts; a parse or API error on page `n`'s body (for
instance a record lacking its `date` element) likewise ends it with zero
inserts — none even from page `n`, whose track list never materializes;
and a storage error inserting a record of page `n` ends it with only that
page's already-inserted prefix and no further fetch. -/
theorem error_aborts_run (setup : Except String Unit)
    (fetch : Nat → Except String Element) (ins : Track → Except String Unit)
    (n fuel : Nat) (e : String) :
    (setup = .error e → archiver setup fetch ins fuel = ([], [], some e)) ∧
    (fetch n = .error e →
      archiverRun fetch ins (some n) (fuel + 1) = ([n], [], some e)) ∧
    (∀ el, fetch n = .ok el → Response.from_slice el = .error e →
      archiverRun fetch ins (some n) (fuel + 1) = ([n], [], some e)) ∧
    (∀ el resp ts, fetch n = .ok el → Response.from_slice el = .ok resp →
      insertTracks ins resp.tracks = (ts, some e) →
      archiverRun fetch ins (some n) (fuel + 1) = ([n], ts, some e)) := by
  have hstep : archiverRun fetch ins (some n) (fuel + 1)
      = match fetch n with
        | .error e => ([n], [], some e)
        | .ok el =>
          match Response.from_slice el with
          | .error e => ([n], [], some e)
          | .ok resp =>
            match insertTracks ins resp.tracks with
            | (ts, some e) => ([n], ts, some e)
            | (ts, none) =>
              let rest := archiverRun fetch ins (nextCursor resp) fuel
              (n :: rest.1, ts ++ rest.2.1, rest.2.2) := rfl
  refine ⟨?_, ?_, ?_, ?_⟩
  · intro h
    simp only [archiver, h]
  · intro h
    simp only [hstep, h]
  · intro el h1 h2
    simp only [hstep, h1, h2]
  · intro el resp ts h1 h2 h3
    simp only [hstep, h1, h2, h3]

/-- A fixture whose only record lacks its `date` element. -/
def noDateBody : Element :=
  .mk "lfm" [("status", "ok")] none
    [.mk "recenttracks" [("page", "1"), ("totalPages", "3"), ("total", "10")] none
      [.mk "track" [] none
        [.mk "artist" [] (some "Cher") [],
         .mk "album" [] (some "Believe") [],
         .mk "mbid" [] none [],
         .mk "name" [] (some "Believe") []]]]

/-- A single-page fixture that parses cleanly with one record. -/
def okBody : Element :=
  .mk "lfm" [("status", "ok")] none
    [.mk "recenttracks" [("page", "1"), ("totalPages", "1"), ("total", "1")] none
      [.mk "track" [] none
        [.mk "artist" [("mbid", "")] (some "Cher") [],
         .mk "album" [("mbid", "abc")] (some "Believe") [],
         .mk "mbid" [] (some "") [],
         .mk "name" [] (some "Believe") [],
         .mk "date" [("uts", "123456")] none []]]]

theorem error_aborts_run_witness :
    archiver (.error "unable to open database file")
        (fun _ => .ok okBody) (fun _ => .ok ()) 5 =
      ([], [], some "unable to open database file") ∧
    archiverRun (fun _ => .error "connection refused") (fun _ => .ok ())
        (some 1) 5 = ([1], [], some "connection refused") ∧
    archiverRun (fun _ => .ok noDateBody) (fun _ => .ok ())
        (some 1) 5 = ([1], [], some "missing date") ∧
    archiverRun (fun _ => .ok okBody) (fun _ => .error "constraint failed")
        (some 1) 5 = ([1], [], some "constraint failed") :=
  ⟨(error_aborts_run (.error "unable to open database file")
      (fun _ => .ok okBody) (fun _ => .ok ()) 1 5 "unable to open database file").1 rfl,
   (error_aborts_run (.ok ()) (fun _ => .error "connection refused") (fun _ => .ok ())
      1 4 "connection refused").2.1 rfl,
   (error_aborts_run (.ok ()) (fun _ => .ok noDateBody) (fun _ => .ok ())
      1 4 "missing date").2.2.1 noDateBody rfl rfl,
   (error_aborts_run (.ok ()) (fun _ => .ok okBody) (fun _ => .error "constraint failed")
      1 4 "constraint failed").2.2.2 okBody
      ⟨1, 1, 1,
        [⟨some ⟨none, "Cher"⟩, some ⟨some "abc", "Believe"⟩, none, "Believe", 123456⟩]⟩
      [] rfl rfl rfl⟩

/-- C4: dispatch on the root's `status` attribute. With
`status="failed"` and an `error` child whose text is `X`, parsing yields
exactly the error message `X` (the spec's `APIError(X)`); any status value
other than `"ok"` and `"failed"` yields `"unknown status"`; and only
`status="ok"` proceeds to structural extraction of the `recenttracks`
container via `build_response`. -/
theorem from_slice_status_dispatch (root : Element) :
    (∀ errEl msg, root.getAttr "status" = some "failed" →
      root.take_child "error" = some errEl → errEl.text = some msg →
      Response.from_slice root = .error msg) ∧
    (∀ st, root.getAttr "status" = some st → st ≠ "ok" → st ≠ "failed" →
      Response.from_slice root = .error "unknown status") ∧
    (∀ rt, root.getAttr "status" = some "ok" →
      root.take_child "recenttracks" = some rt →
      Response.from_slice root = Response.build_response rt) := by
  refine ⟨?_, ?_, ?_⟩
  · intro errEl msg hst herr htxt
    unfold Response.from_slice
    rw [hst]
    simp only [herr, htxt]
    rfl
  · intro st hst hok hfail
    unfold Response.from_slice
    rw [hst]
    have h1 : (st == "ok") = false := by
      simpa using hok
    have h2 : (st == "failed") = false := by
      simpa using hfail
    simp only [h1, h2]
    rfl
  · intro rt hst hrt
    unfold Response.from_slice
    rw [hst]
    simp only [hrt]
    rfl

/-- A `status="failed"` fixture carrying an error message. -/
def failedBody : Element :=
  .mk "lfm" [("status", "failed")] none
    [.mk "error" [] (some "Invalid API key") []]

theorem from_slice_status_dispatch_witness :
    Response.from_slice failedBody = .error "Invalid API key" :=
  (from_slice_status_dispatch failedBody).1
    (.mk "error" [] (some "Invalid API key") []) "Invalid API key" rfl rfl rfl

/-- A `status="ok"` container carrying `page` and `totalPages` but no
`total` attribute. -/
def noTotalContainer : Element :=
  .mk "recenttracks" [("page", "1"), ("totalPages", "1")] none []

/-- C2 counterexample: the code does not tolerate a missing `total`
attribute — on a container with valid `page` and `totalPages` but no
`total`, `build_response` fails with `"missing total"` instead of
succeeding with a zero default. -/
theorem build_response_missing_total_errors :
    Response.build_response noTotalContainer = .error "missing total" := rfl

/-- C2 amended: the `total` attribute is required; whenever `page` and
`totalPages` are present and parse as `u64` but `total` is absent,
parsing fails with the `ParseError` message `"missing total"` (there is
no defaulting to 0). -/
theorem missing_total_yields_parse_error (e : Element) (sp stp : String)
    (p tp : Nat) (h1 : e.getAttr "page" = some sp) (h2 : parseU64 sp = some p)
    (h3 : e.getAttr "totalPages" = some stp) (h4 : parseU64 stp = some tp)
    (h5 : e.getAttr "total" = none) :
    Response.build_response e = .error "missing total" := by
  unfold Response.build_response
  rw [h1]
  simp only [h2, h3, h4, h5]

theorem missing_total_yields_parse_error_witness :
    Response.build_response noTotalContainer = .error "missing total" :=
  missing_total_yields_parse_error noTotalContainer "1" "1" 1 1 rfl rfl rfl rfl rfl

/-- A `status="ok"` container reporting `page="0"`. -/
def pageZeroContainer : Element :=
  .mk "recenttracks" [("page", "0"), ("totalPages", "3"), ("total", "5")] none []

/-- C8 counterexample: a container reporting `page="0"` parses
successfully into a `Response` with `page = 0`, so not every successfully
parsed page satisfies `pageNumber ≥ 1` — the code performs no lower-bound
validation. -/
theorem build_response_accepts_page_zero :
    Response.build_response pageZeroContainer = .ok ⟨0, 3, 5, []⟩ ∧
    ∃ resp, Response.build_response pageZeroContainer = .ok resp ∧ resp.page = 0 :=
  ⟨rfl, ⟨0, 3, 5, []⟩, rfl, rfl⟩

/-- C8 amended: a successful parse only guarantees that `page`,
`totalPages` and `total` were present and parsed as non-negative (`u64`)
integers — `totalRecords ≥ 0` holds inherently, but `pageNumber ≥ 1` and
`totalPages ≥ 1` are not enforced, so a `page=0` or `totalPages=0` body
yields a `Response` violating the spec's data-model invariant. -/
theorem build_response_attrs_parsed_unvalidated (e : Element) (resp : Response)
    (h : Response.build_response e = .ok resp) :
    (∃ s, e.getAttr "page" = some s ∧ parseU64 s = some resp.page) ∧
    (∃ s, e.getAttr "totalPages" = some s ∧ parseU64 s = some resp.total_pages) ∧
    (∃ s, e.getAttr "total" = some s ∧ parseU64 s = some resp.total_tracks) ∧
    0 ≤ resp.total_tracks := by
  unfold Response.build_response at h
  repeat' split at h
  all_goals try exact Except.noConfusion h
  injection h with hresp
  subst hresp
  rename_i x1 sp hsp x2 p hp x3 stp hstp x4 tp htp x5 st hst x6 tt htt x7 tks htks
  exact ⟨⟨sp, hsp, hp⟩, ⟨stp, hstp, htp⟩, ⟨st, hst, htt⟩, Nat.zero_le _⟩

theorem build_response_attrs_parsed_unvalidated_witness :
    (∃ s, pageZeroContainer.getAttr "page" = some s ∧ parseU64 s = some (0 : Nat)) ∧
    (∃ s, pageZeroContainer.getAttr "totalPages" = some s ∧ parseU64 s = some 3) ∧
    (∃ s, pageZeroContainer.getAttr "total" = some s ∧ parseU64 s = some 5) ∧
    0 ≤ (5 : Nat) :=
  build_response_attrs_parsed_unvalidated pageZeroContainer ⟨0, 3, 5, []⟩ rfl

/-- C5: the track list of a successfully parsed page is exactly the
in-order parse of the children that survive the now-playing filter, and
the filter rejects every child whose `nowplaying` attribute equals
`"true"`, wherever it sits among the children — so such a record is
dropped before parsing and never reaches the page's track sequence. -/
theorem nowplaying_never_in_tracks (r : Element) (resp : Response)
    (h : Response.build_response r = .ok resp) :
    (r.children.filter keepTrack).mapM Track.build_track = Except.ok resp.tracks ∧
    ∀ c ∈ r.children, c.getAttr "nowplaying" = some "true" → keepTrack c = false := by
  constructor
  · unfold Response.build_response at h
    repeat' split at h
    all_goals try exact Except.noConfusion h
    injection h with hresp
    subst hresp
    rename_i x1 sp hsp x2 p hp x3 stp hstp x4 tp htp x5 st hst x6 tt htt x7 tks htks
    exact htks
  · intro c _ hc
    unfold keepTrack
    rw [hc]
    decide

/-- A complete, valid track record element. -/
def sampleTrackEl : Element :=
  .mk "track" [] none
    [.mk "artist" [("mbid", "")] (some "Cher") [],
     .mk "album" [("mbid", "abc")] (some "Believe") [],
     .mk "mbid" [] (some "") [],
     .mk "name" [] (some "Believe") [],
     .mk "date" [("uts", "123456")] none []]

/-- The `Track` that `sampleTrackEl` parses to. -/
def sampleTrack : Track :=
  ⟨some ⟨none, "Cher"⟩, some ⟨some "abc", "Believe"⟩, none, "Believe", 123456⟩

/-- A page whose first child is flagged now-playing. -/
def nowPlayingPage : Element :=
  .mk "recenttracks" [("page", "1"), ("totalPages", "2"), ("total", "5")] none
    [.mk "track" [("nowplaying", "true")] none [], sampleTrackEl]

theorem nowplaying_never_in_tracks_witness :
    (nowPlayingPage.children.filter keepTrack).mapM Track.build_track =
      Except.ok (Response.mk 1 2 5 [sampleTrack]).tracks ∧
    ∀ c ∈ nowPlayingPage.children, c.getAttr "nowplaying" = some "true" →
      keepTrack c = false :=
  nowplaying_never_in_tracks nowPlayingPage ⟨1, 2, 5, [sampleTrack]⟩ rfl

/-- An optional string filtered through the code's `!= ""` test is never
the empty string. -/
theorem filter_nonempty_ne_some_empty (o : Option String) :
    o.filter (fun m => m != "") ≠ some "" := by
  cases o with
  | none => simp [Option.filter]
  | some v =>
    simp only [Option.filter]
    split
    · rename_i hv
      intro hc
      injection hc with he
      subst he
      simp at hv
    · exact fun hc => Option.noConfusion hc

/-- C6: a parsed track never records an empty-string identifier: the
`""`-to-absent normalization is applied to the track's `mbid` element
text, to the artist element's `mbid` attribute, and to the album
element's `mbid` attribute alike. -/
theorem empty_mbid_normalized_absent (t : Element) (tr : Track)
    (h : Track.build_track t = .ok tr) :
    tr.mbid ≠ some "" ∧
    (∀ a, tr.artist = some a → a.mbid ≠ some "") ∧
    (∀ al, tr.album = some al → al.mbid ≠ some "") := by
  simp only [Track.build_track] at h
  repeat' split at h
  all_goals try exact Except.noConfusion h
  all_goals
    injection h with htr
  all_goals
    subst htr
  all_goals
    refine ⟨filter_nonempty_ne_some_empty _, ?_, ?_⟩ <;>
      intro a ha <;>
      first
        | exact Option.noConfusion ha
        | (injection ha with ha2; subst ha2; exact filter_nonempty_ne_some_empty _)

theorem empty_mbid_normalized_absent_witness :
    sampleTrack.mbid ≠ some "" ∧
    (∀ a, sampleTrack.artist = some a → a.mbid ≠ some "") ∧
    (∀ al, sampleTrack.album = some al → al.mbid ≠ some "") :=
  empty_mbid_normalized_absent sampleTrackEl sampleTrack rfl

/-- C7: a record element that is not dropped as now-playing must carry
`artist`, `album`, `mbid`, `name` and `date` child elements, a `uts`
attribute on `date` parsing as an integer, and a non-absent `name` text;
each violation fails with the `ParseError` message naming the missing
field (in the code's checking order), and an absent `name` text is the
parse failure `"empty name"`, never a missing-optional. -/
theorem build_track_required_fields (t : Element) :
    (t.take_child "artist" = none → Track.build_track t = .error "missing artist") ∧
    (∀ a, t.take_child "artist" = some a →
      (t.take_child "album" = none → Track.build_track t = .error "missing album") ∧
      (∀ b, t.take_child "album" = some b →
        (t.take_child "mbid" = none → Track.build_track t = .error "missing mbid") ∧
        (∀ m, t.take_child "mbid" = some m →
          (t.take_child "name" = none → Track.build_track t = .error "missing name") ∧
          (∀ nm, t.take_child "name" = some nm →
            (nm.text = none → Track.build_track t = .error "empty name") ∧
            (∀ s, nm.text = some s →
              (t.take_child "date" = none → Track.build_track t = .error "missing date") ∧
              (∀ d, t.take_child "date" = some d →
                (d.getAttr "uts" = none →
                  Track.build_track t = .error "missing timestamp") ∧
                (∀ u, d.getAttr "uts" = some u → parseI64 u = none →
                  Track.build_track t = .error "invalid number"))))))) := by
  refine ⟨?_, ?_⟩
  · intro h1
    simp [Track.build_track, h1]
  · intro a h1
    refine ⟨?_, ?_⟩
    · intro h2
      simp [Track.build_track, h1, h2]
    · intro b h2
      refine ⟨?_, ?_⟩
      · intro h3
        simp [Track.build_track, h1, h2, h3]
      · intro m h3
        refine ⟨?_, ?_⟩
        · intro h4
          simp [Track.build_track, h1, h2, h3, h4]
        · intro nm h4
          refine ⟨?_, ?_⟩
          · intro h5
            simp [Track.build_track, h1, h2, h3, h4, h5]
          · intro s h5
            refine ⟨?_, ?_⟩
            · intro h6
              simp [Track.build_track, h1, h2, h3, h4, h5, h6]
            · intro d h6
              refine ⟨?_, ?_⟩
              · intro h7
                simp [Track.build_track, h1, h2, h3, h4, h5, h6, h7]
              · intro u h7 h8
                simp [Track.build_track, h1, h2, h3, h4, h5, h6, h7, h8]

/-- `sampleTrackEl` with its `date` child removed. -/
def noDateTrackEl : Element :=
  .mk "track" [] none
    [.mk "artist" [("mbid", "")] (some "Cher") [],
     .mk "album" [("mbid", "abc")] (some "Believe") [],
     .mk "mbid" [] (some "") [],
     .mk "name" [] (some "Believe") []]

theorem build_track_required_fields_witness :
    Track.build_track noDateTrackEl = .error "missing date" :=
  ((((((build_track_required_fields noDateTrackEl).2
    (.mk "artist" [("mbid", "")] (some "Cher") []) rfl).2
    (.mk "album" [("mbid", "abc")] (some "Believe") []) rfl).2
    (.mk "mbid" [] (some "") []) rfl).2
    (.mk "name" [] (some "Believe") []) rfl).2
    "Believe" rfl).1 rfl

/-- With a previous date `p` in hand, the flag for record `i` compares
record `i` against its predecessor in `p :: ds`. -/
theorem milestoneFlags_some_getD (ds : List SimpleDate) :
    ∀ (p : SimpleDate) (i : Nat), i < ds.length →
      (milestoneFlags (some p) ds).getD i false =
        ! same_month ((p :: ds).getD i default) (ds.getD i default) := by
  induction ds with
  | nil =>
    intro p i hi
    exact absurd hi (by simp)
  | cons d rest ih =>
    intro p i hi
    cases i with
    | zero => simp [milestoneFlags, fireMilestone]
    | succ j =>
      have hj : j < rest.length := by simpa using hi
      have h := ih d j hj
      simp only [milestoneFlags, List.getD_cons_succ]
      exact h

/-- C9: while consuming records, the milestone fires for record `i` iff
`i` is the first record of the run or its (month, year) pair differs from
the previous record's pair; in particular consecutive records in the same
calendar month never fire, and the first record always does. -/
theorem milestone_fires_iff_month_changes (ds : List SimpleDate) (i : Nat)
    (hi : i < ds.length) :
    ((milestoneFlags none ds).getD i false = true ↔
      (i = 0 ∨ same_month (ds.getD (i - 1) default) (ds.getD i default) = false)) := by
  cases ds with
  | nil => exact absurd hi (by simp)
  | cons d rest =>
    cases i with
    | zero => simp [milestoneFlags, fireMilestone]
    | succ j =>
      have hj : j < rest.length := by simpa using hi
      have h := milestoneFlags_some_getD rest d j hj
      simp only [milestoneFlags, List.getD_cons_succ]
      rw [h]
      simp [List.getD_cons_succ, Bool.not_eq_true']

theorem milestone_fires_iff_month_changes_witness :
    (1 < ([⟨2020, 5⟩, ⟨2020, 5⟩, ⟨2020, 4⟩] : List SimpleDate).length) ∧
    ((milestoneFlags none [⟨2020, 5⟩, ⟨2020, 5⟩, ⟨2020, 4⟩]).getD 1 false = true ↔
      (1 = 0 ∨ same_month
        (([⟨2020, 5⟩, ⟨2020, 5⟩, ⟨2020, 4⟩] : List SimpleDate).getD 0 default)
        (([⟨2020, 5⟩, ⟨2020, 5⟩, ⟨2020, 4⟩] : List SimpleDate).getD 1 default) = false)) :=
  ⟨by decide, milestone_fires_iff_month_changes _ 1 (by decide)⟩
